import Mathlib

/-!
A shallow embedding of the query-to-record resolution pipeline of
`google_places_lookup.py` (class `GooglePlacesClient`): business-name
extraction, similarity scoring, best-match selection, review
normalization and the `lookup_business` orchestrator.

Python strings are modelled as Lean `String` (operated on via their
character lists); Python `float` scores are modelled as `ℚ`; Python
`None` and absent dictionary keys are modelled as `Option`; the two
remote calls (`search_text`, `get_place_details`) are modelled as
oracle functions passed to `lookup_business`, whose `none` result is
the code's `None`-on-request-failure.
-/

set_option linter.unusedVariables false

/-- Per-character lower casing, modelling Python `str.lower` on the
ASCII inputs the tool works with. -/
def lowerL (l : List Char) : List Char := l.map Char.toLower

/-- Whitespace trimming of both ends, modelling Python `str.strip()`. -/
def stripL (l : List Char) : List Char :=
  ((l.dropWhile Char.isWhitespace).reverse.dropWhile Char.isWhitespace).reverse

/-- Substring containment test, modelling Python `needle in hay`. -/
def isSubstrL (needle hay : List Char) : Bool :=
  (List.range (hay.length + 1)).any (fun i => needle.isPrefixOf (hay.drop i))

/-- The part of `l` before the first occurrence of `sep`, i.e. Python
`l.split(sep)[0]` (the whole of `l` when `sep` does not occur). -/
def takeUntilSepL (sep : List Char) : List Char → List Char
  | [] => []
  | c :: rest => if sep.isPrefixOf (c :: rest) then [] else c :: takeUntilSepL sep rest

/-- Whitespace word splitting, modelling Python `str.split()` (runs of
whitespace separate words, no empty chunks are produced). -/
def wordsL (l : List Char) : List (List Char) :=
  (l.foldr (fun c acc =>
    if c.isWhitespace then [] :: acc
    else match acc with
      | [] => [[c]]
      | w :: ws => (c :: w) :: ws) []).filter (fun w => !w.isEmpty)

/-- The stoplist `location_words` of `find_best_match` (line 163). -/
def location_words : List (List Char) :=
  ["city", "ut", "utah", "slc", "salt lake city"].map String.data

/-- Length of the longest common prefix of two character lists. -/
def commonPrefixLen : List Char → List Char → Nat
  | [], _ => 0
  | _ :: _, [] => 0
  | a :: as, b :: bs => if a = b then commonPrefixLen as bs + 1 else 0

/-- Longest matching block `(i, j, size)` between two character lists:
the pair of start positions (smallest `i`, then smallest `j`) carrying
a longest common contiguous run.  This models
`difflib.SequenceMatcher.find_longest_match` (no junk, short inputs)
used by the scorer at line 176. -/
def flm (a b : List Char) : Nat × Nat × Nat :=
  (List.range (a.length + 1)).foldl (fun best i =>
    (List.range (b.length + 1)).foldl (fun best j =>
      if commonPrefixLen (a.drop i) (b.drop j) > best.2.2 then
        (i, j, commonPrefixLen (a.drop i) (b.drop j))
      else best) best) (0, 0, 0)

/-- Total number of matched characters in the Ratcliff-Obershelp
decomposition (`difflib.SequenceMatcher.get_matching_blocks`): the
longest matching block plus, recursively, the matches of the pieces to
its left and to its right.  `fuel` bounds the recursion depth; with
`fuel = a.length + b.length` it is never exhausted. -/
def ratcliffAux : Nat → List Char → List Char → Nat
  | 0, _, _ => 0
  | fuel + 1, a, b =>
    if (flm a b).2.2 = 0 then 0
    else
      ratcliffAux fuel (a.take (flm a b).1) (b.take (flm a b).2.1) +
      (flm a b).2.2 +
      ratcliffAux fuel (a.drop ((flm a b).1 + (flm a b).2.2))
        (b.drop ((flm a b).2.1 + (flm a b).2.2))

/-- Matched-character count for two character lists. -/
def ratcliffMatches (a b : List Char) : Nat :=
  ratcliffAux (a.length + b.length) a b

/-- `difflib.SequenceMatcher(None, a, b).ratio()`: `2·M / T` where `M`
is the matched-character count and `T` the total length (`1` when both
inputs are empty, as in difflib). -/
def ratioL (a b : List Char) : ℚ :=
  if a.length + b.length = 0 then 1
  else ((2 * ratcliffMatches a b : ℕ) : ℚ) / ((a.length + b.length : ℕ) : ℚ)

/-- One search candidate (an element of `search_response["places"]`).
`displayName`'s outer `Option` is presence of the `"displayName"` key,
the inner one presence of its `"text"` sub-key. -/
structure Place where
  id : Option String
  displayName : Option (Option String)
  formattedAddress : Option String
deriving DecidableEq

/-- One raw review payload as delivered inside the details response;
each field's outer `Option` is presence of the corresponding key. -/
structure RawReview where
  authorAttribution : Option (Option String)
  rating : Option Int
  relativePublishTimeDescription : Option String
  originalText : Option (Option String)
  text : Option (Option String)
  publishTime : Option String
deriving DecidableEq

/-- The details response of `get_place_details` (the fields
`lookup_business` reads from it, lines 312-326). -/
structure PlaceDetails where
  displayName : Option (Option String)
  rating : Option ℚ
  userRatingCount : Option Int
  googleMapsUri : Option String
  formattedAddress : Option String
  reviews : Option (List RawReview)
deriving DecidableEq

/-- The `BusinessInfo` dataclass (lines 34-45). -/
structure BusinessInfo where
  query : String
  place_id : String
  name : String
  rating : Option ℚ
  user_ratings_total : Option Int
  maps_url : String
  formatted_address : Option String := none
  match_score : Option ℚ := none
  error : Option String := none
deriving DecidableEq

/-- The `Review` dataclass (lines 48-55). -/
structure Review where
  author : String
  rating : Int
  relative_time : String
  text : String
  publish_time : Option String := none
deriving DecidableEq

/-- The business-name extraction inlined in `find_best_match`
(lines 156-165): split on `" in "` first, then on `", "`; otherwise
drop stoplisted whitespace tokens and rejoin. -/
def extract_business_name (query : String) : String :=
  let ql := lowerL query.data
  if isSubstrL " in ".data ql then ⟨stripL (takeUntilSepL " in ".data ql)⟩
  else if isSubstrL ", ".data ql then ⟨stripL (takeUntilSepL ", ".data ql)⟩
  else
    ⟨stripL (List.intercalate [' ']
      ((wordsL ql).filter (fun w => decide (w ∉ location_words))))⟩

/-- `place.get("displayName", \x7b\x7d).get("text", "")` (line 173). -/
def place_display_text (p : Place) : String :=
  (Option.join p.displayName).getD ""

/-- The lower-cased candidate display name compared by the scorer. -/
def place_name_lower (p : Place) : String :=
  ⟨lowerL (place_display_text p).data⟩

/-- The similarity score of the loop body of `find_best_match`
(lines 176-180): the `SequenceMatcher` ratio, raised to at least `0.8`
when `business_name` is a substring of `place_name`. -/
def similarity_score (business_name place_name : String) : ℚ :=
  if isSubstrL business_name.data place_name.data then
    max (ratioL business_name.data place_name.data) 0.8
  else ratioL business_name.data place_name.data

/-- Score of one candidate against the extracted business name. -/
def candidate_score (business_name : String) (p : Place) : ℚ :=
  similarity_score business_name (place_name_lower p)

/-- The selection loop of `find_best_match` (lines 169-186): starting
from `(None, 0.0)`, a candidate replaces the current best exactly when
its score is strictly greater. -/
def bestFold (score : Place → ℚ) : List Place → Option Place × ℚ → Option Place × ℚ
  | [], acc => acc
  | p :: rest, acc =>
    bestFold score rest (if score p > acc.2 then (some p, score p) else acc)

/-- `GooglePlacesClient.find_best_match` (lines 140-198). -/
def find_best_match (query : String) (search_results : List Place) :
    Option Place × ℚ :=
  if search_results.isEmpty then (none, 0)
  else bestFold (candidate_score (extract_business_name query)) search_results (none, 0)

/-- The review-normalization loop body of `lookup_business`
(lines 326-347): defaults `"Anonymous"`, `0` and `""`, with the review
text read from `originalText.text` and only otherwise from
`text.text`. -/
def normalize_review (r : RawReview) : Review :=
  { author := (Option.join r.authorAttribution).getD "Anonymous"
    rating := r.rating.getD 0
    relative_time := r.relativePublishTimeDescription.getD ""
    text :=
      match r.originalText with
      | some o => o.getD ""
      | none =>
        match r.text with
        | some t => t.getD ""
        | none => ""
    publish_time := some (r.publishTime.getD "") }

/-- The failure record of the search step (lines 260-268). -/
def no_match_info (query : String) : BusinessInfo :=
  { query := query, place_id := "", name := "", rating := none,
    user_ratings_total := none, maps_url := "",
    error := some "No match found" }

/-- The failure record of the match step (lines 278-286). -/
def no_good_match_info (query : String) : BusinessInfo :=
  { query := query, place_id := "", name := "", rating := none,
    user_ratings_total := none, maps_url := "",
    error := some "No good match found" }

/-- `GooglePlacesClient.lookup_business` (lines 244-352), with the two
remote operations abstracted as oracles: `search_text` returns `none`
on request failure, `some none` for a response without a `"places"`
key, and `some (some places)` otherwise; `get_place_details` returns
`none` on request failure. -/
def lookup_business (search_text : String → Option (Option (List Place)))
    (get_place_details : String → Bool → Option PlaceDetails)
    (query : String) (include_reviews : Bool) : BusinessInfo × List Review :=
  match search_text query with
  | none => (no_match_info query, [])
  | some none => (no_match_info query, [])
  | some (some places) =>
    if places.isEmpty then (no_match_info query, [])
    else
      match find_best_match query places with
      | (none, _) => (no_good_match_info query, [])
      | (some best_match, similarity) =>
        let place_id := best_match.id.getD ""
        let name := (Option.join best_match.displayName).getD "Unknown"
        let formatted_address := best_match.formattedAddress.getD ""
        match get_place_details place_id include_reviews with
        | none =>
          ({ query := query, place_id := place_id, name := name,
             rating := none, user_ratings_total := none, maps_url := "",
             formatted_address := some formatted_address,
             error := some "Could not retrieve details" }, [])
        | some d =>
          ({ query := query, place_id := place_id,
             name := (Option.join d.displayName).getD name,
             rating := d.rating,
             user_ratings_total := d.userRatingCount,
             maps_url := d.googleMapsUri.getD "",
             formatted_address := some (d.formattedAddress.getD formatted_address),
             match_score := some similarity },
           if include_reviews then
             match d.reviews with
             | none => []
             | some raws => raws.map normalize_review
           else [])

theorem commonPrefixLen_le_left : ∀ a b : List Char, commonPrefixLen a b ≤ a.length := by
  intro a
  induction a with
  | nil => intro b; cases b <;> simp [commonPrefixLen]
  | cons c cs ih =>
    intro b
    cases b with
    | nil => simp [commonPrefixLen]
    | cons d ds =>
      simp only [commonPrefixLen, List.length_cons]
      split
      · exact Nat.succ_le_succ (ih ds)
      · exact Nat.zero_le _

theorem commonPrefixLen_le_right : ∀ a b : List Char, commonPrefixLen a b ≤ b.length := by
  intro a
  induction a with
  | nil => intro b; cases b <;> simp [commonPrefixLen]
  | cons c cs ih =>
    intro b
    cases b with
    | nil => simp [commonPrefixLen]
    | cons d ds =>
      simp only [commonPrefixLen, List.length_cons]
      split
      · exact Nat.succ_le_succ (ih ds)
      · exact Nat.zero_le _

theorem foldl_inv {α β : Type} (P : β → Prop) (f : β → α → β)
    (hf : ∀ acc x, P acc → P (f acc x)) :
    ∀ (l : List α) (init : β), P init → P (l.foldl f init) := by
  intro l
  induction l with
  | nil => intro init h; exact h
  | cons x xs ih => intro init h; exact ih _ (hf _ _ h)

theorem flm_bound (a b : List Char) :
    (flm a b).2.2 ≤ a.length - (flm a b).1 ∧
    (flm a b).2.2 ≤ b.length - (flm a b).2.1 := by
  unfold flm
  refine foldl_inv (fun t : Nat × Nat × Nat => t.2.2 ≤ a.length - t.1 ∧ t.2.2 ≤ b.length - t.2.1)
    _ (fun acc i hacc => ?_) _ _ ⟨Nat.zero_le _, Nat.zero_le _⟩
  refine foldl_inv (fun t : Nat × Nat × Nat => t.2.2 ≤ a.length - t.1 ∧ t.2.2 ≤ b.length - t.2.1)
    _ (fun acc2 j hacc2 => ?_) _ _ hacc
  dsimp only
  split
  · refine ⟨?_, ?_⟩
    · simpa [List.length_drop] using commonPrefixLen_le_left (a.drop i) (b.drop j)
    · simpa [List.length_drop] using commonPrefixLen_le_right (a.drop i) (b.drop j)
  · exact hacc2

theorem ratcliffAux_le_left :
    ∀ (fuel : Nat) (a b : List Char), ratcliffAux fuel a b ≤ a.length := by
  intro fuel
  induction fuel with
  | zero => intro a b; simp [ratcliffAux]
  | succ n ih =>
    intro a b
    rw [ratcliffAux]
    split
    · exact Nat.zero_le _
    · have hb := flm_bound a b
      have h1 := ih (a.take (flm a b).1) (b.take (flm a b).2.1)
      have h2 := ih (a.drop ((flm a b).1 + (flm a b).2.2))
        (b.drop ((flm a b).2.1 + (flm a b).2.2))
      have l1 : (a.take (flm a b).1).length ≤ (flm a b).1 := by
        rw [List.length_take]; exact Nat.min_le_left _ _
      have l2 : (a.drop ((flm a b).1 + (flm a b).2.2)).length =
          a.length - ((flm a b).1 + (flm a b).2.2) := by
        rw [List.length_drop]
      omega

theorem ratcliffAux_le_right :
    ∀ (fuel : Nat) (a b : List Char), ratcliffAux fuel a b ≤ b.length := by
  intro fuel
  induction fuel with
  | zero => intro a b; simp [ratcliffAux]
  | succ n ih =>
    intro a b
    rw [ratcliffAux]
    split
    · exact Nat.zero_le _
    · have hb := flm_bound a b
      have h1 := ih (a.take (flm a b).1) (b.take (flm a b).2.1)
      have h2 := ih (a.drop ((flm a b).1 + (flm a b).2.2))
        (b.drop ((flm a b).2.1 + (flm a b).2.2))
      have l1 : (b.take (flm a b).2.1).length ≤ (flm a b).2.1 := by
        rw [List.length_take]; exact Nat.min_le_left _ _
      have l2 : (b.drop ((flm a b).2.1 + (flm a b).2.2)).length =
          b.length - ((flm a b).2.1 + (flm a b).2.2) := by
        rw [List.length_drop]
      omega

theorem ratioL_nonneg (a b : List Char) : 0 ≤ ratioL a b := by
  unfold ratioL
  split
  · norm_num
  · positivity

theorem ratioL_le_one (a b : List Char) : ratioL a b ≤ 1 := by
  unfold ratioL
  split
  · exact le_refl 1
  · rename_i h
    have hm1 := ratcliffAux_le_left (a.length + b.length) a b
    have hm2 := ratcliffAux_le_right (a.length + b.length) a b
    have hpos : 0 < a.length + b.length := Nat.pos_of_ne_zero h
    rw [div_le_one (by exact_mod_cast hpos)]
    have hle : 2 * ratcliffMatches a b ≤ a.length + b.length := by
      unfold ratcliffMatches
      omega
    exact_mod_cast hle

theorem bestFold_snd (s : Place → ℚ) :
    ∀ (l : List Place) (bm : Option Place) (bs : ℚ),
      (bestFold s l (bm, bs)).2 = l.foldl (fun acc p => max acc (s p)) bs := by
  intro l
  induction l with
  | nil => intro bm bs; rfl
  | cons p rest ih =>
    intro bm bs
    rw [bestFold, List.foldl_cons]
    by_cases h : s p > bs
    · rw [if_pos h, ih, max_eq_right (le_of_lt h)]
    · rw [if_neg h, ih, max_eq_left (not_lt.mp h)]

theorem bestFold_keep (s : Place → ℚ) :
    ∀ (l : List Place) (bm : Option Place) (bs : ℚ),
      (∀ p ∈ l, s p ≤ bs) → bestFold s l (bm, bs) = (bm, bs) := by
  intro l
  induction l with
  | nil => intro bm bs h; rfl
  | cons p rest ih =>
    intro bm bs h
    rw [bestFold, if_neg (not_lt.mpr (h p (List.mem_cons_self p rest)))]
    exact ih bm bs (fun q hq => h q (List.mem_cons_of_mem p hq))

theorem le_foldl_max (s : Place → ℚ) :
    ∀ (l : List Place) (bs : ℚ), bs ≤ l.foldl (fun acc p => max acc (s p)) bs := by
  intro l
  induction l with
  | nil => intro bs; exact le_refl bs
  | cons p rest ih =>
    intro bs
    rw [List.foldl_cons]
    exact le_trans (le_max_left bs (s p)) (ih (max bs (s p)))

theorem mem_le_foldl_max (s : Place → ℚ) :
    ∀ (l : List Place) (bs : ℚ) (p : Place), p ∈ l →
      s p ≤ l.foldl (fun acc q => max acc (s q)) bs := by
  intro l
  induction l with
  | nil => intro bs p h; cases h
  | cons q rest ih =>
    intro bs p h
    rw [List.foldl_cons]
    rcases List.mem_cons.mp h with h | h
    · subst h; exact le_trans (le_max_right bs (s p)) (le_foldl_max s rest _)
    · exact ih _ p h

theorem bestFold_none (s : Place → ℚ) :
    ∀ (l : List Place) (bm : Option Place) (bs : ℚ),
      (bestFold s l (bm, bs)).1 = none → bm = none ∧ ∀ p ∈ l, s p ≤ bs := by
  intro l
  induction l with
  | nil => intro bm bs h; exact ⟨h, by intro p hp; cases hp⟩
  | cons p rest ih =>
    intro bm bs h
    rw [bestFold] at h
    by_cases hgt : s p > bs
    · rw [if_pos hgt] at h
      exact absurd (ih (some p) (s p) h).1 (Option.some_ne_none p)
    · rw [if_neg hgt] at h
      rcases ih bm bs h with ⟨h1, h2⟩
      refine ⟨h1, fun q hq => ?_⟩
      rcases List.mem_cons.mp hq with rfl | hq
      · exact not_lt.mp hgt
      · exact h2 q hq

theorem bestFold_find (s : Place → ℚ) :
    ∀ (l : List Place) (bm : Option Place) (bs M : ℚ),
      M = l.foldl (fun acc p => max acc (s p)) bs →
      bs < M →
      (bestFold s l (bm, bs)).1 = l.find? (fun p => decide (s p = M)) := by
  intro l
  induction l with
  | nil => intro bm bs M hM hlt; rw [hM] at hlt; exact absurd hlt (lt_irrefl bs)
  | cons p rest ih =>
    intro bm bs M hM hlt
    rw [List.foldl_cons] at hM
    rw [bestFold]
    by_cases hgt : s p > bs
    · rw [if_pos hgt]
      rw [max_eq_right (le_of_lt hgt)] at hM
      by_cases h2 : s p < M
      · rw [ih (some p) (s p) M hM h2]
        rw [List.find?_cons_of_neg]
        simp only [decide_eq_true_eq]
        exact ne_of_lt h2
      · have hMp : M = s p := by
          have hge : s p ≤ M := hM ▸ le_foldl_max s rest (s p)
          exact le_antisymm (not_lt.mp h2) hge
        have hall : ∀ q ∈ rest, s q ≤ s p := by
          intro q hq
          have := mem_le_foldl_max s rest (s p) q hq
          rw [← hM, hMp] at this
          exact this
        rw [bestFold_keep s rest (some p) (s p) hall]
        rw [List.find?_cons_of_pos]
        simp only [decide_eq_true_eq]
        exact hMp.symm
    · rw [if_neg hgt]
      have hle : s p ≤ bs := not_lt.mp hgt
      rw [max_eq_left hle] at hM
      rw [ih bm bs M hM hlt]
      rw [List.find?_cons_of_neg]
      simp only [decide_eq_true_eq]
      exact ne_of_lt (lt_of_le_of_lt hle hlt)

theorem isSubstrL_nil (h : List Char) : isSubstrL [] h = true := by
  unfold isSubstrL
  rw [List.any_eq_true]
  exact ⟨0, List.mem_range.mpr (Nat.succ_pos _), by simp [List.isPrefixOf]⟩

theorem flm_nil_left (b : List Char) : (flm [] b).2.2 = 0 := by
  unfold flm
  refine foldl_inv (fun t : Nat × Nat × Nat => t.2.2 = 0)
    _ (fun acc i hacc => ?_) _ _ rfl
  refine foldl_inv (fun t : Nat × Nat × Nat => t.2.2 = 0)
    _ (fun acc2 j hacc2 => ?_) _ _ hacc
  dsimp only
  rw [List.drop_nil]
  rw [if_neg]
  · exact hacc2
  · rw [hacc2]
    show ¬ commonPrefixLen [] (b.drop j) > 0
    simp [commonPrefixLen]

theorem ratcliffAux_nil_left (fuel : Nat) (b : List Char) :
    ratcliffAux fuel [] b = 0 := by
  cases fuel with
  | zero => rfl
  | succ n => rw [ratcliffAux, if_pos (flm_nil_left b)]

theorem ratioL_nil_left (b : List Char) (hb : b ≠ []) : ratioL [] b = 0 := by
  unfold ratioL
  rw [if_neg]
  · unfold ratcliffMatches
    rw [ratcliffAux_nil_left]
    norm_num
  · simpa [List.length_eq_zero] using hb

theorem similarity_score_of_substr (bn pn : String)
    (h : isSubstrL bn.data pn.data = true) :
    similarity_score bn pn = max (ratioL bn.data pn.data) 0.8 := by
  unfold similarity_score
  rw [if_pos h]

theorem similarity_score_of_not_substr (bn pn : String)
    (h : isSubstrL bn.data pn.data = false) :
    similarity_score bn pn = ratioL bn.data pn.data := by
  unfold similarity_score
  rw [if_neg]
  simp [h]

theorem similarity_score_nonneg (bn pn : String) : 0 ≤ similarity_score bn pn := by
  unfold similarity_score
  split
  · exact le_trans (ratioL_nonneg _ _) (le_max_left _ _)
  · exact ratioL_nonneg _ _

theorem similarity_score_le_one (bn pn : String) : similarity_score bn pn ≤ 1 := by
  unfold similarity_score
  split
  · exact max_le (ratioL_le_one _ _) (by norm_num)
  · exact ratioL_le_one _ _

theorem candidate_score_pos_of_substr (bn : String) (p : Place)
    (h : isSubstrL bn.data (place_name_lower p).data = true) :
    0 < candidate_score bn p := by
  unfold candidate_score
  rw [similarity_score_of_substr _ _ h]
  exact lt_of_lt_of_le (by norm_num) (le_max_right _ _)

theorem find_best_match_singleton (q : String) (c : Place)
    (h : 0 < candidate_score (extract_business_name q) c) :
    find_best_match q [c] =
      (some c, candidate_score (extract_business_name q) c) := by
  unfold find_best_match
  rw [if_neg (by simp)]
  rw [bestFold, if_pos h, bestFold]

/-- C4: for every pair of case-folded strings, the similarity score lies
in `[0, 1]`, and whenever the business name is a substring of the
candidate name the score equals `max(ratio, 0.8)` and hence is at least
`0.8`. -/
theorem C4_similarity_score_spec (business_name candidate_name : String) :
    0 ≤ similarity_score business_name candidate_name ∧
    similarity_score business_name candidate_name ≤ 1 ∧
    (isSubstrL business_name.data candidate_name.data = true →
      similarity_score business_name candidate_name =
        max (ratioL business_name.data candidate_name.data) 0.8 ∧
      0.8 ≤ similarity_score business_name candidate_name) := by
  refine ⟨similarity_score_nonneg _ _, similarity_score_le_one _ _, fun h => ?_⟩
  rw [similarity_score_of_substr _ _ h]
  exact ⟨rfl, le_max_right _ _⟩

/-- Witness for C4 at the spec's own example pair. -/
theorem C4_witness :
    isSubstrL "acme".data "acme holiday lighting co".data = true ∧
    0 ≤ similarity_score "acme" "acme holiday lighting co" ∧
    similarity_score "acme" "acme holiday lighting co" ≤ 1 ∧
    similarity_score "acme" "acme holiday lighting co" =
      max (ratioL "acme".data "acme holiday lighting co".data) 0.8 ∧
    0.8 ≤ similarity_score "acme" "acme holiday lighting co" :=
  ⟨by decide, (C4_similarity_score_spec _ _).1, (C4_similarity_score_spec _ _).2.1,
    ((C4_similarity_score_spec "acme" "acme holiday lighting co").2.2 (by decide)).1,
    ((C4_similarity_score_spec "acme" "acme holiday lighting co").2.2 (by decide)).2⟩

/-- C8: business-name extraction takes the case-folded, trimmed part
before the first `" in "` when that separator occurs (even when `", "`
occurs earlier in the string), otherwise before the first `", "`; in
particular on the spec's two examples. -/
theorem C8_extract_business_name_split :
    extract_business_name "Acme Lighting in Salt Lake City" = "acme lighting" ∧
    extract_business_name "Acme Lighting, SLC" = "acme lighting" ∧
    extract_business_name "A, B in C" = "a, b" :=
  ⟨by decide, by decide, by decide⟩

theorem ratioL_eq_zero (a b : List Char) (hm : ratcliffMatches a b = 0)
    (hne : ¬ (a.length + b.length = 0)) : ratioL a b = 0 := by
  unfold ratioL
  rw [if_neg hne, hm]
  norm_num

theorem candidate_score_empty_ge (p : Place) : 0.8 ≤ candidate_score "" p := by
  have hsub : isSubstrL ("" : String).data (place_name_lower p).data = true := by
    rw [show ("" : String).data = [] from rfl]
    exact isSubstrL_nil _
  unfold candidate_score
  rw [similarity_score_of_substr _ _ hsub]
  exact le_max_right _ _

theorem candidate_score_empty_eq (p : Place) (h : (place_name_lower p).data ≠ []) :
    candidate_score "" p = 0.8 := by
  have hsub : isSubstrL ("" : String).data (place_name_lower p).data = true := by
    rw [show ("" : String).data = [] from rfl]
    exact isSubstrL_nil _
  unfold candidate_score
  rw [similarity_score_of_substr _ _ hsub]
  rw [show ("" : String).data = [] from rfl]
  rw [ratioL_nil_left _ h]
  exact max_eq_right (by norm_num)

/-- The claim's description of the Match selection target: the greatest
similarity score over the candidate list (with the loop's initial value
`0.0` included, as in the code). -/
def max_score_over (query : String) (places : List Place) : ℚ :=
  places.foldl
    (fun acc p => max acc (candidate_score (extract_business_name query) p)) 0

/-- The claim's description of the selected candidate: the first-seen
candidate (in input order) attaining the maximal score. -/
def first_max_candidate (query : String) (places : List Place) : Option Place :=
  places.find? (fun p =>
    decide (candidate_score (extract_business_name query) p = max_score_over query places))

/-- C3 (amended): `find_best_match` returns a non-null candidate for
every candidate list containing at least one candidate of positive
similarity score; the `"No good match found"` exit is unreachable only
under that proviso (a non-empty all-zero-score list does reach it, see
the counterexample). -/
theorem C3_some_of_positive_score (query : String) (places : List Place)
    (h : ∃ p ∈ places, 0 < candidate_score (extract_business_name query) p) :
    (find_best_match query places).1 ≠ none := by
  obtain ⟨p, hp, hpos⟩ := h
  have hne : places.isEmpty = false := by
    cases places with
    | nil => cases hp
    | cons a rest => rfl
  intro hnone
  unfold find_best_match at hnone
  rw [if_neg (by simp [hne])] at hnone
  have hle := (bestFold_none _ places none 0 hnone).2 p hp
  exact absurd hpos (not_lt.mpr hle)

/-- Counterexample to C3 as stated: a non-empty candidate list on which
`find_best_match` still returns no candidate, because the sole
candidate's name shares no character with the extracted business name
and the strict `>` update never fires from the initial score `0.0`. -/
theorem C3_counterexample :
    ([(⟨some "z1", some (some "abc"), none⟩ : Place)] ≠ []) ∧
    (find_best_match "xyz" [⟨some "z1", some (some "abc"), none⟩]).1 = none := by
  refine ⟨by simp, ?_⟩
  have hs : candidate_score (extract_business_name "xyz")
      ⟨some "z1", some (some "abc"), none⟩ = 0 := by
    unfold candidate_score
    rw [similarity_score_of_not_substr _ _ (by decide)]
    exact ratioL_eq_zero _ _ (by decide) (by decide)
  unfold find_best_match
  rw [if_neg (by decide)]
  rw [bestFold, if_neg (by rw [hs]; exact lt_irrefl 0), bestFold]

/-- Witness for C3 at a concrete positively-scoring input. -/
theorem C3_witness :
    (find_best_match "xy" [⟨some "w1", some (some "xy"), none⟩]).1 ≠ none :=
  C3_some_of_positive_score "xy" _
    ⟨⟨some "w1", some (some "xy"), none⟩, List.mem_cons_self _ _,
      candidate_score_pos_of_substr _ _ (by decide)⟩

/-- C5 (amended): whenever some candidate scores positively, the Match
step returns exactly the first-seen candidate attaining the maximal
similarity score, together with that score; with all scores zero no
candidate is returned at all (see the counterexample). -/
theorem C5_first_max_selection (query : String) (places : List Place)
    (h : ∃ p ∈ places, 0 < candidate_score (extract_business_name query) p) :
    find_best_match query places =
      (first_max_candidate query places, max_score_over query places) := by
  obtain ⟨p, hp, hpos⟩ := h
  have hne : places.isEmpty = false := by
    cases places with
    | nil => cases hp
    | cons a rest => rfl
  have hM : (0 : ℚ) < max_score_over query places :=
    lt_of_lt_of_le hpos (mem_le_foldl_max _ places 0 p hp)
  have h1 : (bestFold (candidate_score (extract_business_name query))
      places (none, 0)).1 = first_max_candidate query places := by
    rw [bestFold_find (candidate_score (extract_business_name query)) places none 0
      (max_score_over query places) rfl hM]
    rfl
  have h2 : (bestFold (candidate_score (extract_business_name query))
      places (none, 0)).2 = max_score_over query places :=
    bestFold_snd _ places none 0
  unfold find_best_match
  rw [if_neg (by simp [hne])]
  exact Prod.ext h1 h2

/-- Counterexample to C5 as stated: candidates are present and the
maximal score is attained by the sole candidate, yet no candidate is
selected (the result is `none`, not the first-seen maximal one). -/
theorem C5_counterexample :
    (find_best_match "qqq" [⟨some "z9", some (some "zzz"), none⟩]).1 = none ∧
    (⟨some "z9", some (some "zzz"), none⟩ : Place) ∈
      [(⟨some "z9", some (some "zzz"), none⟩ : Place)] := by
  refine ⟨?_, List.mem_cons_self _ _⟩
  have hs : candidate_score (extract_business_name "qqq")
      ⟨some "z9", some (some "zzz"), none⟩ = 0 := by
    unfold candidate_score
    rw [similarity_score_of_not_substr _ _ (by decide)]
    exact ratioL_eq_zero _ _ (by decide) (by decide)
  unfold find_best_match
  rw [if_neg (by decide)]
  rw [bestFold, if_neg (by rw [hs]; exact lt_irrefl 0), bestFold]

/-- Witness for C5 at a concrete positively-scoring input. -/
theorem C5_witness :
    find_best_match "ab" [⟨some "p1", some (some "ab"), none⟩] =
      (first_max_candidate "ab" [⟨some "p1", some (some "ab"), none⟩],
       max_score_over "ab" [⟨some "p1", some (some "ab"), none⟩]) :=
  C5_first_max_selection "ab" _
    ⟨⟨some "p1", some (some "ab"), none⟩, List.mem_cons_self _ _,
      candidate_score_pos_of_substr _ _ (by decide)⟩

/-- C10 (amended): when the extracted business name is empty, every
candidate scores at least `0.8` (the empty string is a substring of
every name); if moreover every candidate's display name is non-empty,
every candidate scores exactly `0.8` and the first candidate is
selected with score `0.8`.  Without the non-empty-name proviso a later
empty-named candidate scores `1.0` and wins (see the counterexample). -/
theorem C10_empty_name_selection (query : String) (p0 : Place) (rest : List Place)
    (hbn : extract_business_name query = "") :
    (∀ p ∈ p0 :: rest, 0.8 ≤ candidate_score (extract_business_name query) p) ∧
    ((∀ p ∈ p0 :: rest, (place_name_lower p).data ≠ []) →
      find_best_match query (p0 :: rest) = (some p0, 0.8)) := by
  constructor
  · intro p hp
    rw [hbn]
    exact candidate_score_empty_ge p
  · intro hnames
    have h0 : candidate_score (extract_business_name query) p0 = 0.8 := by
      rw [hbn]
      exact candidate_score_empty_eq p0 (hnames p0 (List.mem_cons_self _ _))
    have hall : ∀ q ∈ rest, candidate_score (extract_business_name query) q ≤ 0.8 := by
      intro q hq
      rw [hbn, candidate_score_empty_eq q (hnames q (List.mem_cons_of_mem _ hq))]
    unfold find_best_match
    rw [if_neg (by simp)]
    rw [bestFold, if_pos (by rw [h0]; show (0 : ℚ) < 0.8; norm_num)]
    rw [h0]
    exact bestFold_keep _ rest (some p0) 0.8 hall

/-- Counterexample to C10 as stated: with an empty extracted name, a
later candidate with an empty display name scores `1.0` and displaces
the first candidate (which scores `0.8`). -/
theorem C10_counterexample :
    extract_business_name "city" = "" ∧
    (find_best_match "city"
      [⟨some "a1", some (some "A"), none⟩, ⟨some "e1", none, none⟩]).1 =
      some ⟨some "e1", none, none⟩ ∧
    (⟨some "e1", none, none⟩ : Place) ≠ ⟨some "a1", some (some "A"), none⟩ := by
  refine ⟨by decide, ?_, by decide⟩
  have h1 : candidate_score (extract_business_name "city")
      ⟨some "a1", some (some "A"), none⟩ = 0.8 := by
    rw [show extract_business_name "city" = "" from by decide]
    exact candidate_score_empty_eq _ (by decide)
  have h2 : candidate_score (extract_business_name "city")
      ⟨some "e1", none, none⟩ = 1 := by
    rw [show extract_business_name "city" = "" from by decide]
    unfold candidate_score
    rw [similarity_score_of_substr _ _ (by decide)]
    have hr : ratioL ("" : String).data
        (place_name_lower ⟨some "e1", none, none⟩).data = 1 := by
      rw [show (place_name_lower (⟨some "e1", none, none⟩ : Place)).data = []
            from by decide,
          show ("" : String).data = [] from rfl]
      unfold ratioL
      simp
    rw [hr]
    exact max_eq_left (by norm_num)
  unfold find_best_match
  rw [if_neg (by decide)]
  rw [bestFold, if_pos (by rw [h1]; show (0 : ℚ) < 0.8; norm_num)]
  rw [h1]
  rw [bestFold, if_pos (by rw [h2]; show (0.8 : ℚ) < 1; norm_num)]
  rw [h2, bestFold]

/-- Witness for C10 at a concrete input with an empty extracted name
and non-empty candidate names. -/
theorem C10_witness :
    find_best_match "city"
      [⟨some "a1", some (some "Acme"), none⟩, ⟨some "b1", some (some "Bravo"), none⟩] =
      (some ⟨some "a1", some (some "Acme"), none⟩, 0.8) ∧
    0.8 ≤ candidate_score (extract_business_name "city")
      ⟨some "a1", some (some "Acme"), none⟩ :=
  ⟨(C10_empty_name_selection "city" ⟨some "a1", some (some "Acme"), none⟩
      [⟨some "b1", some (some "Bravo"), none⟩] (by decide)).2 (by decide),
   (C10_empty_name_selection "city" ⟨some "a1", some (some "Acme"), none⟩
      [⟨some "b1", some (some "Bravo"), none⟩] (by decide)).1 _ (by decide)⟩

/-- C1 (amended): whenever the returned record's `error` is set, its
`rating` and `user_ratings_total` are `None`, its `maps_url` and review
list are empty and no `match_score` is set; `formatted_address`,
however, is retained from the search candidate on the
`"Could not retrieve details"` exit (see the counterexample), and
absent only on the other two error exits. -/
theorem C1_error_record_shape
    (search_text : String → Option (Option (List Place)))
    (get_place_details : String → Bool → Option PlaceDetails)
    (query : String) (include_reviews : Bool)
    (h : (lookup_business search_text get_place_details query include_reviews).1.error ≠ none) :
    (lookup_business search_text get_place_details query include_reviews).1.rating = none ∧
    (lookup_business search_text get_place_details query include_reviews).1.user_ratings_total = none ∧
    (lookup_business search_text get_place_details query include_reviews).1.maps_url = "" ∧
    (lookup_business search_text get_place_details query include_reviews).1.match_score = none ∧
    (lookup_business search_text get_place_details query include_reviews).2 = [] := by
  rcases hs : search_text query with _ | op
  · simp [lookup_business, hs, no_match_info]
  · rcases op with _ | places
    · simp [lookup_business, hs, no_match_info]
    · by_cases hp : places.isEmpty
      · simp [lookup_business, hs, hp, no_match_info]
      · rcases hfb : find_best_match query places with ⟨o, sc⟩
        rcases o with _ | bm
        · simp [lookup_business, hs, hp, hfb, no_good_match_info]
        · rcases hd : get_place_details (bm.id.getD "") include_reviews with _ | d
          · simp [lookup_business, hs, hp, hfb, hd]
          · exfalso
            apply h
            simp [lookup_business, hs, hp, hfb, hd]

/-- Counterexample to C1 as stated: on a detail-fetch failure the
record carries a non-empty `error` together with the search
candidate's `formatted_address`. -/
theorem C1_counterexample :
    (lookup_business
      (fun _ => some (some [⟨some "pid1", some (some "Acme"), some "123 Main St"⟩]))
      (fun _ _ => none) "acme" true).1.error = some "Could not retrieve details" ∧
    (lookup_business
      (fun _ => some (some [⟨some "pid1", some (some "Acme"), some "123 Main St"⟩]))
      (fun _ _ => none) "acme" true).1.formatted_address = some "123 Main St" := by
  have hpos : 0 < candidate_score (extract_business_name "acme")
      ⟨some "pid1", some (some "Acme"), some "123 Main St"⟩ :=
    candidate_score_pos_of_substr _ _ (by decide)
  have hfb := find_best_match_singleton "acme" _ hpos
  constructor <;> simp [lookup_business, hfb]

/-- Witness for C1 at a concrete failing search. -/
theorem C1_witness :
    (lookup_business (fun _ => none) (fun _ _ => none) "q" true).1.rating = none ∧
    (lookup_business (fun _ => none) (fun _ _ => none) "q" true).1.user_ratings_total = none ∧
    (lookup_business (fun _ => none) (fun _ _ => none) "q" true).1.maps_url = "" ∧
    (lookup_business (fun _ => none) (fun _ _ => none) "q" true).1.match_score = none ∧
    (lookup_business (fun _ => none) (fun _ _ => none) "q" true).2 = [] :=
  C1_error_record_shape (fun _ => none) (fun _ _ => none) "q" true (by decide)

/-- C2: when search and match succeed but the detail fetch fails, the
record keeps the matched candidate's place id, display name and
formatted address, carries `error = "Could not retrieve details"`, has
no rating, rating count, maps url or match score, and the review list
is empty. -/
theorem C2_detail_failure_keeps_match_data
    (search_text : String → Option (Option (List Place)))
    (get_place_details : String → Bool → Option PlaceDetails)
    (query : String) (include_reviews : Bool) (places : List Place) (best : Place)
    (hs : search_text query = some (some places))
    (hp : places.isEmpty = false)
    (hfb : (find_best_match query places).1 = some best)
    (hd : get_place_details (best.id.getD "") include_reviews = none) :
    lookup_business search_text get_place_details query include_reviews =
      ({ query := query, place_id := best.id.getD "",
         name := (Option.join best.displayName).getD "Unknown",
         rating := none, user_ratings_total := none, maps_url := "",
         formatted_address := some (best.formattedAddress.getD ""),
         match_score := none,
         error := some "Could not retrieve details" }, []) := by
  rcases hfbp : find_best_match query places with ⟨o, sc⟩
  rw [hfbp] at hfb
  simp only at hfb
  subst hfb
  simp [lookup_business, hs, hp, hfbp, hd]

/-- Witness for C2 at a concrete snapshot whose detail fetch fails. -/
theorem C2_witness :
    lookup_business (fun _ => some (some [⟨some "p2", some (some "ab"), some "addr"⟩]))
      (fun _ _ => none) "ab" true =
      ({ query := "ab", place_id := "p2", name := "ab", rating := none,
         user_ratings_total := none, maps_url := "",
         formatted_address := some "addr", match_score := none,
         error := some "Could not retrieve details" }, []) := by
  have hpos : 0 < candidate_score (extract_business_name "ab")
      ⟨some "p2", some (some "ab"), some "addr"⟩ :=
    candidate_score_pos_of_substr _ _ (by decide)
  have hfb1 : (find_best_match "ab" [⟨some "p2", some (some "ab"), some "addr"⟩]).1 =
      some ⟨some "p2", some (some "ab"), some "addr"⟩ := by
    rw [find_best_match_singleton "ab" _ hpos]
  exact C2_detail_failure_keeps_match_data
    (fun _ => some (some [⟨some "p2", some (some "ab"), some "addr"⟩]))
    (fun _ _ => none) "ab" true [⟨some "p2", some (some "ab"), some "addr"⟩]
    ⟨some "p2", some (some "ab"), some "addr"⟩ rfl rfl hfb1 rfl

/-- C6: when the search request fails, the response lacks a `"places"`
key, or the candidate list is empty, the result is exactly the
`"No match found"` record with empty place id and name and an empty
review list, and is independent of the detail-fetch oracle (so no
detail call can influence the outcome). -/
theorem C6_search_failure
    (search_text : String → Option (Option (List Place)))
    (d1 d2 : String → Bool → Option PlaceDetails)
    (query : String) (include_reviews : Bool)
    (h : search_text query = none ∨ search_text query = some none ∨
      search_text query = some (some ([] : List Place))) :
    lookup_business search_text d1 query include_reviews =
      ({ query := query, place_id := "", name := "", rating := none,
         user_ratings_total := none, maps_url := "", formatted_address := none,
         match_score := none, error := some "No match found" }, []) ∧
    lookup_business search_text d1 query include_reviews =
      lookup_business search_text d2 query include_reviews := by
  rcases h with h | h | h <;> constructor <;> simp [lookup_business, h, no_match_info]

/-- Witness for C6 at the spec's end-to-end example query. -/
theorem C6_witness :
    lookup_business (fun _ => none) (fun _ _ => none) "NoSuchPlace9999XYZ" true =
      ({ query := "NoSuchPlace9999XYZ", place_id := "", name := "", rating := none,
         user_ratings_total := none, maps_url := "", formatted_address := none,
         match_score := none, error := some "No match found" }, []) ∧
    lookup_business (fun _ => none) (fun _ _ => none) "NoSuchPlace9999XYZ" true =
      lookup_business (fun _ => none)
        (fun _ _ => some ⟨none, none, none, none, none, none⟩)
        "NoSuchPlace9999XYZ" true :=
  C6_search_failure (fun _ => none) (fun _ _ => none)
    (fun _ _ => some ⟨none, none, none, none, none, none⟩)
    "NoSuchPlace9999XYZ" true (Or.inl rfl)

/-- C7: review normalization is total and entry-preserving on the
provider's payload shape: a missing author yields `"Anonymous"`, a
missing rating yields `0`, the text comes from `originalText.text`,
falls back to `text.text` only when the `originalText` key is absent,
and is empty when neither yields text; mapping over a raw review list
preserves its length (no entry is dropped). -/
theorem C7_normalize_review_total (r : RawReview) (raws : List RawReview) :
    (r.authorAttribution = none → (normalize_review r).author = "Anonymous") ∧
    (r.rating = none → (normalize_review r).rating = 0) ∧
    (∀ t, r.originalText = some (some t) → (normalize_review r).text = t) ∧
    (∀ t, r.originalText = none → r.text = some (some t) →
      (normalize_review r).text = t) ∧
    (r.originalText = none → r.text = none → (normalize_review r).text = "") ∧
    (r.originalText = some none → (normalize_review r).text = "") ∧
    (raws.map normalize_review).length = raws.length := by
  refine ⟨fun h => ?_, fun h => ?_, fun t h => ?_, fun t h1 h2 => ?_,
    fun h1 h2 => ?_, fun h => ?_, by simp⟩
  all_goals simp [normalize_review, *]

/-- Witness for C7 across one concrete payload per field shape. -/
theorem C7_witness :
    (normalize_review ⟨none, none, none, none, none, none⟩).author = "Anonymous" ∧
    (normalize_review ⟨none, none, none, none, none, none⟩).rating = 0 ∧
    (normalize_review ⟨none, none, none, some (some "great"), none, none⟩).text = "great" ∧
    (normalize_review ⟨none, none, none, none, some (some "ok"), none⟩).text = "ok" ∧
    (normalize_review ⟨none, none, none, none, none, none⟩).text = "" ∧
    (normalize_review ⟨none, none, none, some none, some (some "ok"), none⟩).text = "" ∧
    ([(⟨none, none, none, none, none, none⟩ : RawReview)].map normalize_review).length = 1 :=
  ⟨(C7_normalize_review_total ⟨none, none, none, none, none, none⟩ []).1 rfl,
   (C7_normalize_review_total ⟨none, none, none, none, none, none⟩ []).2.1 rfl,
   (C7_normalize_review_total ⟨none, none, none, some (some "great"), none, none⟩ []).2.2.1 "great" rfl,
   (C7_normalize_review_total ⟨none, none, none, none, some (some "ok"), none⟩ []).2.2.2.1 "ok" rfl rfl,
   (C7_normalize_review_total ⟨none, none, none, none, none, none⟩ []).2.2.2.2.1 rfl rfl,
   (C7_normalize_review_total ⟨none, none, none, some none, some (some "ok"), none⟩ []).2.2.2.2.2.1 rfl,
   (C7_normalize_review_total ⟨none, none, none, none, none, none⟩
     [⟨none, none, none, none, none, none⟩]).2.2.2.2.2.2⟩

/-- C9: resolution is deterministic — two runs against equal provider
snapshots (the same search and detail oracles), the same query and the
same flag yield identical records and review lists. -/
theorem C9_deterministic
    (s1 s2 : String → Option (Option (List Place)))
    (d1 d2 : String → Bool → Option PlaceDetails)
    (query : String) (include_reviews : Bool)
    (hs : s1 = s2) (hd : d1 = d2) :
    lookup_business s1 d1 query include_reviews =
      lookup_business s2 d2 query include_reviews := by
  rw [hs, hd]

/-- Witness for C9 at a concrete snapshot. -/
theorem C9_witness :
    lookup_business (fun _ => none) (fun _ _ => none) "q9" true =
      lookup_business (fun _ => none) (fun _ _ => none) "q9" true :=
  C9_deterministic (fun _ => none) (fun _ => none) (fun _ _ => none)
    (fun _ _ => none) "q9" true rfl rfl
